import Mathlib

/-!
Verification of the connection/session and marshaling core of the `awp5`
package (`awp5/base/helpers.py`, `awp5/base/connection.py`).

The Python code is shallowly embedded: each Python function becomes a Lean
function over explicit data; Python truthiness, the dynamic types occurring at
each call site, and the mutation of object fields and class-level globals are
made explicit.  Subprocess behaviour (exit code, captured stdout bytes, or a
timeout) is an oracle parameter.  Stdout bytes are modelled as lists of byte
values; decoding is modelled for ASCII outputs, where the UTF-8 decode of
`nsdchat_call` always succeeds (none of the verified properties exercise
multi-byte output or the locale fallback).
-/

namespace Awp5

/-! ## helpers.py -/

/-- An entry of an argument list passed to `strings` in `helpers.py`:
a string, an integer, Python `None`, or a nested list. -/
inductive Arg where
  | str (s : String)
  | int (n : Int)
  | pynone
  | list (l : List Arg)

/-- Python truthiness of an `Arg` (`if entry:`): empty string, zero, `None`
and the empty list are falsy. -/
def pyTruthyArg : Arg → Bool
  | .str s => s ≠ ""
  | .int n => n ≠ 0
  | .pynone => false
  | .list l => !l.isEmpty

/-- Python `"{}".format(entry)` for the non-list entries that `strings`
formats.  (`strings` never formats a list entry: it recurses into it; the
list case below is therefore unreachable from `strings`.) -/
def formatArg : Arg → String
  | .str s => s
  | .int n => toString n
  | .pynone => "None"
  | .list _ => ""

/-- `helpers.strings`: walk the input list; drop falsy entries; recurse into
list entries, extending the result in place; format every other entry. -/
def strings (input_list : List Arg) : List String :=
  match input_list with
  | [] => []
  | entry :: rest =>
    if pyTruthyArg entry then
      match entry with
      | .list l => strings l ++ strings rest
      | e => formatArg e :: strings rest
    else strings rest
termination_by sizeOf input_list

/-- Depth-first, left-to-right flattening of nested lists, as the spec
describes the output shape of `strings` (spec-side definition, for the
refinement statement of C7). -/
def flattenArgs (l : List Arg) : List Arg :=
  match l with
  | [] => []
  | .list xs :: rest => flattenArgs xs ++ flattenArgs rest
  | e :: rest => e :: flattenArgs rest
termination_by sizeOf l

/-- `helpers.defaultIfNotSet` at string type, with `none` standing for
Python `None`: return `val` if truthy, else `default`. -/
def defaultIfNotSet : Option String → String → String
  | some s, dflt => if s ≠ "" then s else dflt
  | none, dflt => dflt

/-- `helpers.defaultIfNotSet` at integer type (`0` and `None` are falsy). -/
def defaultIfNotSetInt : Option Int → Int → Int
  | some n, dflt => if n ≠ 0 then n else dflt
  | none, dflt => dflt

/-- An element of the token list returned by a function wrapped with
`onereturnvalue`: either a plain string token or a non-string value (such
as a resource object, identified here by its name). -/
inductive RVal where
  | str (s : String)
  | obj (name : String)
deriving DecidableEq

/-- Python `type(val) == str` test used inside `onereturnvalue`. -/
def RVal.isStr : RVal → Bool
  | .str _ => true
  | .obj _ => false

/-- The string content of an `RVal`; only used under an all-strings guard. -/
def RVal.asStr : RVal → String
  | .str s => s
  | .obj _ => ""

/-- Python `" ".join(l)`. -/
def joinSpace : List String → String
  | [] => ""
  | [s] => s
  | s :: rest => s ++ " " ++ joinSpace rest

/-- The Python value returned by the `onereturnvalue` wrapper: a string, a
single non-string element (`result[0]`), or a list returned unmodified. -/
inductive RResult where
  | vstr (s : String)
  | vobj (name : String)
  | vlist (l : List RVal)
deriving DecidableEq

/-- `result[0]` returned as a Python value. -/
def RVal.toRes : RVal → RResult
  | .str s => .vstr s
  | .obj o => .vobj o

/-- The body of `helpers.onereturnvalue`'s wrapper, applied to the list
`result` returned by the wrapped function.  Mirrors the source: the whole
collapsing logic is guarded by `if result:` (list truthiness), the
`no_of_values == 0` branch inside it is kept as written, and a list with a
non-string element falls through to the final `return result`. -/
def onereturnvalue (result : List RVal) : RResult :=
  if !result.isEmpty then
    if result.length = 0 then .vstr ""
    else if result.length = 1 then
      match result with
      | v :: _ => v.toRes
      | [] => .vstr ""
    else if result.length > 1 then
      if result.all RVal.isStr then .vstr (joinSpace (result.map RVal.asStr))
      else .vlist result
    else .vlist result
  else .vlist result

/-- `helpers.resourcelist`: build `resource_class(entry, p5connection)` for
each entry, in order, appending to an accumulator list, skipping the
sentinels `"<empty>"` and `"unknown"`; the `len(input_list)` guard of the
source is kept. -/
def resourcelist {κ ρ : Type} (input_list : List String)
    (resource_class : String → κ → ρ) (p5connection : κ) : List ρ :=
  let result_list : List ρ := []
  if input_list.length ≠ 0 then
    input_list.foldl
      (fun acc entry =>
        if entry ≠ "<empty>" && entry ≠ "unknown" then
          acc ++ [resource_class entry p5connection]
        else acc)
      result_list
  else result_list

/-! ## config.py (process-wide defaults; POSIX platform modelled) -/

namespace config

def p5_user : String := "Administrator"

def p5_pass : String := "password"

def p5_ip : String := "127.0.0.1"

def p5_port_nr : Int := 8000

def p5_path : String := "/usr/local/aw"

end config

/-! ## connection.py -/

/-- Python truthiness of an optional-string field (`None` and `""` falsy). -/
def pyTruthyOptStr : Option String → Bool
  | none => false
  | some s => s ≠ ""

/-- A `Connection` object's instance fields. -/
structure Conn where
  p5_user : String
  p5_pass : String
  p5_ip : String
  p5_port_nr : Int
  p5_path : String
  debugMsg : Bool
  connection_string : Option String
  session_id : Option String
  nsdchat : String
deriving DecidableEq

/-- The class-level globals of `Connection`, over an abstract type `ι` of
connection-object identities. -/
structure Globals (ι : Type) where
  default_connection : Option ι
  last_connection : Option ι
  prefer_last_connection : Bool
deriving DecidableEq

/-- The `session_id` logic of `Connection.__init__`, as written:
`self.session_id = None`, then `if not self.session_id:` generate
`"_".join(["awp5", sha224(str(time.time())).hexdigest()])`, else assign the
`sessionid` argument.  `timeHashHex` stands for the hex digest of the
timestamp hash. -/
def initSessionId (sessionid : Option String) (timeHashHex : String) : Option String :=
  let session_id : Option String := none
  if !pyTruthyOptStr session_id then some ("awp5" ++ "_" ++ timeHashHex)
  else sessionid

/-- `ConnectionBase.__init__`: each field re-defaulted through
`defaultIfNotSet` (note the source defaults `p5_ip` with itself). -/
def connectionBaseFields (p5_user p5_pass p5_ip : String) (p5_port_nr : Int)
    (p5_path : String) : String × String × String × Int × String :=
  (defaultIfNotSet (some p5_user) config.p5_user,
   defaultIfNotSet (some p5_pass) config.p5_pass,
   defaultIfNotSet (some p5_ip) p5_ip,
   defaultIfNotSetInt (some p5_port_nr) config.p5_port_nr,
   defaultIfNotSet (some p5_path) config.p5_path)

/-- `Connection.__init__`: default the constructor arguments from `config`,
pass them through `ConnectionBase.__init__`, initialise `debugMsg`,
`connection_string`, `session_id` and the POSIX path of the `nsdchat`
executable (`os.path.join(p5_path, "bin", "nsdchat")`). -/
def connectionInit (p5_user p5_pass p5_ip : Option String) (p5_port_nr : Option Int)
    (p5_path : Option String) (sessionid : Option String) (timeHashHex : String) : Conn :=
  let base := connectionBaseFields
    (defaultIfNotSet p5_user config.p5_user)
    (defaultIfNotSet p5_pass config.p5_pass)
    (defaultIfNotSet p5_ip config.p5_ip)
    (defaultIfNotSetInt p5_port_nr config.p5_port_nr)
    (defaultIfNotSet p5_path config.p5_path)
  { p5_user := base.1
    p5_pass := base.2.1
    p5_ip := base.2.2.1
    p5_port_nr := base.2.2.2.1
    p5_path := base.2.2.2.2
    debugMsg := false
    connection_string := none
    session_id := initSessionId sessionid timeHashHex
    nsdchat := base.2.2.2.2 ++ "/bin/nsdchat" }

/-- End of `Connection.__init__`: `if not Connection.default_connection:`
register this object as the process-wide default. -/
def registerDefault {ι : Type} (selfId : ι) (g : Globals ι) : Globals ι :=
  match g.default_connection with
  | some _ => g
  | none => { g with default_connection := some selfId }

/-- Python `str.format` of a field that may hold `None`. -/
def formatOptStr : Option String → String
  | some s => s
  | none => "None"

/-- `ConnectionBase.string_template` instantiated:
`awsock:/{user}:{password}:{sessionid}@{hostip}:{port}` with
`port = p5_port_nr + 1001`. -/
def formatConnectionString (c : Conn) : String :=
  "awsock:/" ++ c.p5_user ++ ":" ++ c.p5_pass ++ ":" ++ formatOptStr c.session_id
    ++ "@" ++ c.p5_ip ++ ":" ++ toString (c.p5_port_nr + 1001)

/-- `Connection.getConnectionString`: compute and cache the connection string
on first (truthy) use, then return the cached field.  Returns the string and
the updated object. -/
def getConnectionString (c : Conn) : String × Conn :=
  if pyTruthyOptStr c.connection_string then (c.connection_string.getD "", c)
  else
    let t := formatConnectionString c
    (t, { c with connection_string := some t })

/-- Captured stdout of the subprocess, as raw byte values. -/
abbrev Bytes := List Nat

/-- The ASCII whitespace bytes stripped by Python `bytes.strip()`. -/
def isPyWsByte (b : Nat) : Bool :=
  b = 32 || b = 9 || b = 10 || b = 13 || b = 11 || b = 12

/-- Python `bytes.strip()`. -/
def bytesStrip (b : Bytes) : Bytes :=
  ((b.dropWhile isPyWsByte).reverse.dropWhile isPyWsByte).reverse

/-- The whitespace characters stripped by Python `str.strip()`. -/
def isPyWsChar (c : Char) : Bool :=
  c = ' ' || c = '\t' || c = '\n' || c = '\r' || c = '\x0b' || c = '\x0c'

/-- Python `str.strip()`. -/
def pyStrip (s : String) : String :=
  String.mk (((s.data.dropWhile isPyWsChar).reverse.dropWhile isPyWsChar).reverse)

/-- Accumulating loop behind `pySplitSpace`. -/
def splitSpaceAux : List Char → List Char → List String
  | [], cur => [String.mk cur.reverse]
  | c :: rest, cur =>
    if c = ' ' then String.mk cur.reverse :: splitSpaceAux rest []
    else splitSpaceAux rest (c :: cur)

/-- Python `str.split(' ')` with the explicit single-space separator: every
space ends a field, adjacent spaces produce empty fields, and the empty
string yields `[""]`. -/
def pySplitSpace (s : String) : List String := splitSpaceAux s.data []

/-- Decoding of captured stdout, modelled for ASCII byte sequences (each
byte below 128 is its own code point; on such inputs `out.decode('utf-8')`
succeeds and the locale-encoding fallback `except` branch is not taken). -/
def bytesDecode (b : Bytes) : String := String.mk (b.map Char.ofNat)

/-- A Python value that is either a `str` or a `bytes` object, as compared
by `out.strip() == ''` in `nsdchat_call`. -/
inductive PyVal where
  | vstr (s : String)
  | vbytes (b : Bytes)
deriving DecidableEq

/-- Python 3 `==` on these values: `bytes` and `str` objects never compare
equal (each type's `__eq__` returns `NotImplemented` for the other operand,
and the fallback identity comparison is false). -/
def pyEq : PyVal → PyVal → Bool
  | .vstr a, .vstr b => a == b
  | .vbytes a, .vbytes b => a == b
  | _, _ => false

/-- Behaviour of one spawned subprocess under `communicate(timeout=...)`:
either the timeout expires, or the process completes with an exit code and
captured stdout. -/
inductive ProcBehavior where
  | timesOut
  | completes (returncode : Int) (stdout : Bytes)

/-- The raised Python exceptions the model distinguishes:
`subprocess.TimeoutExpired` from `communicate`, and the `TypeError` `Popen`
raises on a non-string argv element. -/
inductive PyError where
  | timeoutExpired
  | typeError
deriving DecidableEq

/-- The value `nsdchat_call` returns: Python `None`, or the token list. -/
inductive CallOutcome where
  | pynoneResult
  | tokens (ts : List String)
deriving DecidableEq

/-- Result of a completed (non-raising) `nsdchat_call`: return value, the
updated connection object and class globals, whether `geterror` was invoked
on the error path, and the argv of the spawned process. -/
structure CallResult (ι : Type) where
  retval : CallOutcome
  conn : Conn
  globals : Globals ι
  geterrorInvoked : Bool
  argv : List String
deriving DecidableEq

/-- `Connection.nsdchat_call(cmd, timeout=10)`.  `selfId` identifies the
object in the class globals `g`; `proc` is the subprocess oracle, a function
of the timeout passed to `communicate`. -/
def nsdchat_call {ι : Type} (selfId : ι) (c : Conn) (g : Globals ι)
    (cmd : List Arg) (timeout : Int) (proc : Int → ProcBehavior) :
    Except PyError (CallResult ι) :=
  let gcs := getConnectionString c
  let c1 := gcs.2
  let nsdcmd := [c.nsdchat, "-s", gcs.1, "-c"]
  let argv := nsdcmd ++ strings cmd
  match proc timeout with
  | .timesOut => .error .timeoutExpired
  | .completes returncode out =>
    if returncode ≠ 0 && pyEq (.vbytes (bytesStrip out)) (.vstr "") then
      .ok { retval := .pynoneResult, conn := c1, globals := g,
            geterrorInvoked := true, argv := argv }
    else
      let res := pySplitSpace (pyStrip (bytesDecode out))
      .ok { retval := .tokens res, conn := c1,
            globals := { g with last_connection := some selfId },
            geterrorInvoked := false, argv := argv }

/-- The default value of `nsdchat_call`'s `timeout` parameter. -/
def nsdchatCallDefaultTimeout : Int := 10

/-- The message of the `AssertionError` raised by `Connection.get`. -/
def errNoConnection : String :=
  "No Connection has been established yet. Create a connection object first"

/-- `Connection.get`: prefer the last-used connection when the flag is set
and one exists, else the default connection, else raise. -/
def connectionGet {ι : Type} (g : Globals ι) : Except String ι :=
  match g.prefer_last_connection, g.last_connection with
  | true, some l => .ok l
  | _, _ =>
    match g.default_connection with
    | some d => .ok d
    | none => .error errNoConnection

/-- The argv built by `Connection.geterror` from the raw
`self.connection_string` field; `none` stands for a Python `None` element
(a non-string) in the list. -/
def geterrorCmd (c : Conn) : List (Option String) :=
  [some c.nsdchat, some "-s", c.connection_string, some "-c", some "geterror"]

/-- `Connection.geterror`: spawn `nsdchat -s <connection_string> -c geterror`
(`Popen` raises `TypeError` when an argv element is not a string, which
happens exactly when `connection_string` is still `None`); on a non-zero
exit code log and fall through, implicitly returning `None`; otherwise
return the decoded stdout. -/
def geterror (c : Conn) (returncode : Int) (out : Bytes) :
    Except PyError (Option String) :=
  if (geterrorCmd c).all Option.isSome then
    if returncode ≠ 0 then .ok none
    else .ok (some (bytesDecode out))
  else .error .typeError

/-- A `P5Resource` handle: a name bound to a connection (identified in the
class globals by `ι`). -/
structure P5Resource (ι : Type) where
  name : String
  p5_connection : ι
deriving DecidableEq

/-- `P5Resource.__init__`: a falsy (absent) connection argument is resolved
through `Connection.get`, which may raise. -/
def p5ResourceInit {ι : Type} (name : String) (p5_connection : Option ι)
    (g : Globals ι) : Except String (P5Resource ι) :=
  match p5_connection with
  | some conn => .ok { name := name, p5_connection := conn }
  | none => (connectionGet g).map (fun conn => { name := name, p5_connection := conn })

/-! ## Concrete objects used by the closed theorems and witnesses -/

/-- A `Connection` built with all-default arguments at timestamp hash `t0`. -/
def demoConn : Conn := connectionInit none none none none none none "t0"

/-- Class globals with no default, no last-used connection, and
`prefer_last_connection = True` (connections identified by `Nat`). -/
def demoGlobals : Globals Nat := ⟨none, none, true⟩

/-- Subprocess oracle: the process completes with exit code 0 and stdout
`b"ab"`. -/
def demoProcOk : Int → ProcBehavior := fun _ => .completes 0 [97, 98]

/-- The `nsdchat_call` of claim C3's failing input: the subprocess exits
with code 1 and empty stdout. -/
def c3call : Except PyError (CallResult Nat) :=
  nsdchat_call 5 demoConn demoGlobals [] nsdchatCallDefaultTimeout
    (fun _ => .completes 1 [])

/-- The completed result of `c3call`. -/
def c3res : CallResult Nat :=
  match c3call with
  | .ok r => r
  | .error _ => { retval := .pynoneResult, conn := demoConn, globals := demoGlobals,
                  geterrorInvoked := true, argv := [] }

/-- The completed result of a successful `nsdchat_call` on connection `5`. -/
def c5res : CallResult Nat :=
  match nsdchat_call 5 demoConn demoGlobals [] nsdchatCallDefaultTimeout demoProcOk with
  | .ok r => r
  | .error _ => { retval := .pynoneResult, conn := demoConn, globals := demoGlobals,
                  geterrorInvoked := true, argv := [] }

/-! ## Theorems -/

/-- The connection string always starts with the `awsock:/` scheme, so it is
never the empty (falsy) string: caching in `getConnectionString` sticks. -/
theorem formatConnectionString_ne_empty (c : Conn) : formatConnectionString c ≠ "" := by
  intro h
  have hlen : (formatConnectionString c).length = 0 := by rw [h]; rfl
  rw [formatConnectionString] at hlen
  simp only [String.length_append] at hlen
  have h8 : ("awsock:/" : String).length = 8 := rfl
  omega

/-- C1: the claim says a caller-supplied `sessionid` becomes the session
identifier. The code assigns `self.session_id = None` and then tests that
field (not the `sessionid` argument), so the generated branch is always
taken and the argument is ignored: at `sessionid="mysession"` and timestamp
hash `"deadbeef"`, the session id is the generated `"awp5_deadbeef"`, not
`"mysession"`. -/
theorem c1_sessionid_argument_ignored :
    (connectionInit none none none none none (some "mysession") "deadbeef").session_id
      = some "awp5_deadbeef"
    ∧ (connectionInit none none none none none (some "mysession") "deadbeef").session_id
      ≠ some "mysession" := by
  exact ⟨rfl, by decide⟩

/-- C2 counterexample: the wrapper returns the empty list `[]` unchanged,
not `""` (the whole collapsing logic is behind the `if result:` truthiness
guard), and a one-element list holding a non-string value yields that value
itself (`result[0]`), not the list unchanged. -/
theorem c2_counterexample :
    onereturnvalue [] ≠ RResult.vstr ""
    ∧ onereturnvalue [] = RResult.vlist []
    ∧ onereturnvalue [RVal.obj "r"] ≠ RResult.vlist [RVal.obj "r"]
    ∧ onereturnvalue [RVal.obj "r"] = RResult.vobj "r" := by
  refine ⟨by decide, rfl, by decide, rfl⟩

/-- C2 (amended): `["a"]` yields `"a"`; `[]` is returned unchanged; a list of
two or more elements that are all plain strings is joined with single
spaces; and a list of two or more elements containing a non-string element
is returned unchanged. -/
theorem c2_onereturnvalue_collapsing :
    onereturnvalue [RVal.str "a"] = RResult.vstr "a"
    ∧ onereturnvalue [] = RResult.vlist []
    ∧ (∀ l : List RVal, 2 ≤ l.length → l.all RVal.isStr = true →
        onereturnvalue l = RResult.vstr (joinSpace (l.map RVal.asStr)))
    ∧ (∀ l : List RVal, 2 ≤ l.length → l.all RVal.isStr = false →
        onereturnvalue l = RResult.vlist l) := by
  refine ⟨rfl, rfl, ?_, ?_⟩
  · intro l hlen hall
    match l, hlen with
    | a :: b :: rest, _ =>
      have h1 : ¬ ((a :: b :: rest).length = 0) := by simp
      have h2 : ¬ ((a :: b :: rest).length = 1) := by simp
      have h3 : (a :: b :: rest).length > 1 := by simp only [List.length_cons]; omega
      simp [onereturnvalue, h1, h2, h3, hall]
  · intro l hlen hall
    match l, hlen with
    | a :: b :: rest, _ =>
      have h1 : ¬ ((a :: b :: rest).length = 0) := by simp
      have h2 : ¬ ((a :: b :: rest).length = 1) := by simp
      have h3 : (a :: b :: rest).length > 1 := by simp only [List.length_cons]; omega
      simp [onereturnvalue, h1, h2, h3, hall]

/-- C2 witness: the two guarded clauses of the amended claim at concrete
inputs. -/
theorem c2_onereturnvalue_collapsing_witness :
    onereturnvalue [RVal.str "x", RVal.str "y"] = RResult.vstr "x y"
    ∧ onereturnvalue [RVal.str "x", RVal.obj "r"]
      = RResult.vlist [RVal.str "x", RVal.obj "r"] := by
  constructor
  · have h := c2_onereturnvalue_collapsing.2.2.1 [RVal.str "x", RVal.str "y"]
      (by decide) (by decide)
    rw [h]; rfl
  · exact c2_onereturnvalue_collapsing.2.2.2 [RVal.str "x", RVal.obj "r"]
      (by decide) (by decide)

/-- C3: the claim says a non-zero exit with empty stdout yields `None` after
invoking `geterror`. In the code the test `out.strip() == ''` compares a
`bytes` value with a `str` value, which is always false in Python 3, so the
soft-failure branch is unreachable: at exit code 1 with stdout `b""` the
call returns the token list `[""]` and `geterror` is never invoked. -/
theorem c3_soft_failure_path_unreachable :
    c3call = Except.ok c3res
    ∧ c3res.retval = CallOutcome.tokens [""]
    ∧ c3res.retval ≠ CallOutcome.pynoneResult
    ∧ c3res.geterrorInvoked = false := by
  refine ⟨rfl, rfl, by decide, rfl⟩

/-- C4: when `communicate` does not complete within the caller-supplied
timeout, `nsdchat_call` raises the `subprocess.TimeoutExpired` error to the
caller; it does not return `None` or a token list. -/
theorem c4_nsdchat_call_timeout_raises {ι : Type} (selfId : ι) (c : Conn)
    (g : Globals ι) (cmd : List Arg) (timeout : Int) (proc : Int → ProcBehavior)
    (h : proc timeout = ProcBehavior.timesOut) :
    nsdchat_call selfId c g cmd timeout proc = Except.error PyError.timeoutExpired := by
  rw [nsdchat_call, h]

/-- C4 witness: a concrete call at the default timeout of 10 whose
subprocess times out. -/
theorem c4_nsdchat_call_timeout_raises_witness :
    nsdchat_call (ι := Nat) 0 demoConn demoGlobals [] nsdchatCallDefaultTimeout
      (fun _ => ProcBehavior.timesOut) = Except.error PyError.timeoutExpired :=
  c4_nsdchat_call_timeout_raises 0 demoConn demoGlobals [] nsdchatCallDefaultTimeout
    (fun _ => ProcBehavior.timesOut) rfl

/-- C5: a completed `nsdchat_call` that returns a token list stores the
calling connection as `Connection.last_connection`, and ambient resolution
via `Connection.get` under `prefer_last_connection` then returns that
connection; a call that returns `None` leaves the class globals unchanged. -/
theorem c5_nsdchat_call_marks_last {ι : Type} (selfId : ι) (c : Conn)
    (g : Globals ι) (cmd : List Arg) (timeout : Int) (proc : Int → ProcBehavior)
    (r : CallResult ι)
    (h : nsdchat_call selfId c g cmd timeout proc = Except.ok r) :
    (∀ ts, r.retval = CallOutcome.tokens ts →
      r.globals.last_connection = some selfId
      ∧ (r.globals.prefer_last_connection = true →
          connectionGet r.globals = Except.ok selfId))
    ∧ (r.retval = CallOutcome.pynoneResult →
        r.globals.last_connection = g.last_connection) := by
  obtain ⟨d, l, p⟩ := g
  rw [nsdchat_call] at h
  cases hpt : proc timeout with
  | timesOut => rw [hpt] at h; exact absurd h (by simp)
  | completes rc out =>
    rw [hpt] at h
    simp only [pyEq, Bool.and_false, Bool.false_eq_true, if_false] at h
    cases h
    constructor
    · intro ts hts
      refine ⟨rfl, ?_⟩
      intro hp
      simp only at hp
      subst hp
      rfl
    · intro hnone
      exact absurd hnone (by simp)

/-- C5 witness: a successful call on connection `5` with
`prefer_last_connection = True` marks `5` as last used and makes
`Connection.get` resolve to it. -/
theorem c5_nsdchat_call_marks_last_witness :
    c5res.retval = CallOutcome.tokens ["ab"]
    ∧ c5res.globals.last_connection = some 5
    ∧ connectionGet c5res.globals = Except.ok 5 := by
  have hcall : nsdchat_call 5 demoConn demoGlobals [] nsdchatCallDefaultTimeout demoProcOk
      = Except.ok c5res := rfl
  have h := c5_nsdchat_call_marks_last 5 demoConn demoGlobals [] nsdchatCallDefaultTimeout
    demoProcOk c5res hcall
  have hret : c5res.retval = CallOutcome.tokens ["ab"] := rfl
  have h2 := h.1 ["ab"] hret
  exact ⟨hret, h2.1, h2.2 rfl⟩

/-- C6: `Connection.get` resolves the ambient connection: the last-used
connection when `prefer_last_connection` is set and one exists; otherwise
the default connection when one exists; otherwise it raises the
configuration error. The first constructed connection registers itself as
the default (and a later construction leaves an existing default in
place). -/
theorem c6_connection_get_resolution {ι : Type} (g : Globals ι) (selfId : ι) :
    (∀ l, g.prefer_last_connection = true → g.last_connection = some l →
        connectionGet g = Except.ok l)
    ∧ (∀ d, (g.prefer_last_connection = false ∨ g.last_connection = none) →
        g.default_connection = some d → connectionGet g = Except.ok d)
    ∧ ((g.prefer_last_connection = false ∨ g.last_connection = none) →
        g.default_connection = none → connectionGet g = Except.error errNoConnection)
    ∧ (g.default_connection = none →
        (registerDefault selfId g).default_connection = some selfId)
    ∧ (∀ d0, g.default_connection = some d0 →
        (registerDefault selfId g).default_connection = some d0) := by
  obtain ⟨d, l, p⟩ := g
  refine ⟨?_, ?_, ?_, ?_, ?_⟩
  · intro x hp hl
    simp only at hp hl
    subst hp; subst hl
    rfl
  · intro dd hor hd
    simp only at hd
    subst hd
    rcases hor with hp | hl
    · simp only at hp; subst hp; cases l <;> rfl
    · simp only at hl; subst hl; cases p <;> rfl
  · intro hor hd
    simp only at hd
    subst hd
    rcases hor with hp | hl
    · simp only at hp; subst hp; cases l <;> rfl
    · simp only at hl; subst hl; cases p <;> rfl
  · intro hd
    simp only at hd
    subst hd
    rfl
  · intro d0 hd
    simp only at hd
    subst hd
    rfl

/-- C6 witness: the three resolution outcomes and the default registration
at concrete global states. -/
theorem c6_connection_get_resolution_witness :
    connectionGet (ι := Nat) ⟨some 1, some 2, true⟩ = Except.ok 2
    ∧ connectionGet (ι := Nat) ⟨some 1, some 2, false⟩ = Except.ok 1
    ∧ connectionGet (ι := Nat) ⟨none, none, false⟩ = Except.error errNoConnection
    ∧ (registerDefault 7 (⟨none, none, false⟩ : Globals Nat)).default_connection = some 7 := by
  have h1 := c6_connection_get_resolution (⟨some 1, some 2, true⟩ : Globals Nat) 7
  have h2 := c6_connection_get_resolution (⟨some 1, some 2, false⟩ : Globals Nat) 7
  have h3 := c6_connection_get_resolution (⟨none, none, false⟩ : Globals Nat) 7
  exact ⟨h1.1 2 rfl rfl, h2.2.1 1 (Or.inl rfl) rfl,
    h3.2.2.1 (Or.inl rfl) rfl, h3.2.2.2.1 rfl⟩

/-- C7: `strings` returns the depth-first, left-to-right flattening of its
input with every falsy entry (Python `None`, the number 0, the empty string,
the empty list) omitted entirely and every kept entry formatted as a string,
preserving relative order; it is total (never raises). -/
theorem c7_strings_flattens_and_drops_falsy (l : List Arg) :
    strings l = ((flattenArgs l).filter pyTruthyArg).map formatArg := by
  match l with
  | [] => simp [strings, flattenArgs]
  | Arg.str s :: rest =>
    have ih := c7_strings_flattens_and_drops_falsy rest
    by_cases h : s = ""
    · subst h; simp [strings, flattenArgs, pyTruthyArg, ih]
    · simp [strings, flattenArgs, pyTruthyArg, formatArg, h, ih]
  | Arg.int n :: rest =>
    have ih := c7_strings_flattens_and_drops_falsy rest
    by_cases h : n = 0
    · subst h; simp [strings, flattenArgs, pyTruthyArg, ih]
    · simp [strings, flattenArgs, pyTruthyArg, formatArg, h, ih]
  | Arg.pynone :: rest =>
    have ih := c7_strings_flattens_and_drops_falsy rest
    simp [strings, flattenArgs, pyTruthyArg, ih]
  | Arg.list xs :: rest =>
    have ih1 := c7_strings_flattens_and_drops_falsy xs
    have ih2 := c7_strings_flattens_and_drops_falsy rest
    by_cases h : xs = []
    · subst h; simp [strings, flattenArgs, pyTruthyArg, ih2]
    · simp [strings, flattenArgs, pyTruthyArg, h, ih1, ih2]
termination_by sizeOf l

/-- The append-accumulating loop of `resourcelist` builds the filtered map
of the input. -/
theorem resourcelist_foldl {κ ρ : Type} (T : String → κ → ρ) (conn : κ)
    (ts : List String) (acc : List ρ) :
    ts.foldl
      (fun acc entry =>
        if entry ≠ "<empty>" && entry ≠ "unknown" then acc ++ [T entry conn]
        else acc) acc
      = acc ++ (ts.filter (fun e => e ≠ "<empty>" && e ≠ "unknown")).map
          (fun e => T e conn) := by
  induction ts generalizing acc with
  | nil => simp
  | cons a rest ih =>
    rw [List.foldl_cons, ih, List.filter_cons]
    by_cases h : (a ≠ "<empty>" && a ≠ "unknown") = true
    · rw [if_pos h, if_pos h, List.map_cons]
      simp [List.append_assoc]
    · rw [if_neg h, if_neg h]

/-- C9: `resourcelist` builds one handle per token, in input order, with the
token as the handle's name, skipping exactly the sentinels `"<empty>"` and
`"unknown"`; in particular the sentinel singletons give `[]` and
`["r1","r2"]` gives two `P5Resource` handles named `"r1"`, `"r2"` bound to
the given connection. -/
theorem c9_resourcelist_builds_handles :
    (∀ (κ ρ : Type) (ts : List String) (T : String → κ → ρ) (conn : κ),
      resourcelist ts T conn
        = (ts.filter (fun e => e ≠ "<empty>" && e ≠ "unknown")).map (fun e => T e conn))
    ∧ resourcelist ["<empty>"] (P5Resource.mk (ι := Nat)) 0 = []
    ∧ resourcelist ["unknown"] (P5Resource.mk (ι := Nat)) 0 = []
    ∧ resourcelist ["r1", "r2"] (P5Resource.mk (ι := Nat)) 0
      = [{ name := "r1", p5_connection := 0 }, { name := "r2", p5_connection := 0 }] := by
  refine ⟨?_, by decide, by decide, by decide⟩
  intro κ ρ ts T conn
  cases ts with
  | nil => rfl
  | cons a rest =>
    rw [resourcelist]
    rw [if_pos (by simp), resourcelist_foldl, List.nil_append]

/-- C8: the first `getConnectionString` call computes the URI
`awsock:/<user>:<password>:<sessionId>@<host>:<port+1001>` from the current
fields and caches it; after mutating `p5_user`, `p5_pass`, `p5_ip`,
`p5_port_nr` and `session_id`, a later call still returns the originally
computed string. -/
theorem c8_connection_string_cached (c : Conn) (h : c.connection_string = none)
    (u pw ip : String) (port : Int) (sid : Option String) :
    (getConnectionString c).1 = formatConnectionString c
    ∧ (getConnectionString { (getConnectionString c).2 with
        p5_user := u, p5_pass := pw, p5_ip := ip, p5_port_nr := port,
        session_id := sid }).1 = formatConnectionString c := by
  have hne := formatConnectionString_ne_empty c
  constructor
  · simp [getConnectionString, h, pyTruthyOptStr]
  · simp [getConnectionString, h, pyTruthyOptStr, hne]

/-- C8 witness: caching on a concrete connection, with every mutable field
changed between the two calls. -/
theorem c8_connection_string_cached_witness :
    (getConnectionString demoConn).1
      = "awsock:/Administrator:password:awp5_t0@127.0.0.1:9001"
    ∧ (getConnectionString { (getConnectionString demoConn).2 with
        p5_user := "u2", p5_pass := "p2", p5_ip := "10.0.0.1", p5_port_nr := 1,
        session_id := some "s2" }).1
      = "awsock:/Administrator:password:awp5_t0@127.0.0.1:9001" := by
  have h := c8_connection_string_cached demoConn rfl "u2" "p2" "10.0.0.1" 1 (some "s2")
  constructor
  · rw [h.1]; rfl
  · rw [h.2]; rfl

/-- C10: `geterror` builds its argv from the raw `connection_string` field
(the argv depends only on that field and the executable path); a freshly
constructed `Connection` still has `connection_string = None`, so the argv
contains a non-string (`None`) element and `geterror` fails with the
`TypeError` `Popen` raises, for any subprocess behaviour. -/
theorem c10_geterror_needs_cached_uri :
    (∀ (u pw ip : Option String) (port : Option Int) (path sid : Option String)
        (th : String),
      (connectionInit u pw ip port path sid th).connection_string = none)
    ∧ (∀ c c' : Conn, c.nsdchat = c'.nsdchat →
        c.connection_string = c'.connection_string → geterrorCmd c = geterrorCmd c')
    ∧ (∀ c : Conn, c.connection_string = none → none ∈ geterrorCmd c)
    ∧ (∀ c : Conn, c.connection_string = none →
        ∀ (rc : Int) (out : Bytes), geterror c rc out = Except.error PyError.typeError) := by
  refine ⟨?_, ?_, ?_, ?_⟩
  · intro u pw ip port path sid th; rfl
  · intro c c' h1 h2; simp [geterrorCmd, h1, h2]
  · intro c h; simp [geterrorCmd, h]
  · intro c h rc out; simp [geterror, geterrorCmd, h]

/-- C10 witness: a fresh all-default connection has no cached connection
string, its `geterror` argv contains `None`, and `geterror` fails with
`TypeError`. -/
theorem c10_geterror_needs_cached_uri_witness :
    demoConn.connection_string = none
    ∧ none ∈ geterrorCmd demoConn
    ∧ geterror demoConn 0 [] = Except.error PyError.typeError := by
  have h := c10_geterror_needs_cached_uri
  exact ⟨h.1 none none none none none none "t0",
    h.2.2.1 demoConn rfl, h.2.2.2 demoConn rfl 0 []⟩

end Awp5
